import Mathlib

/-!
# MediaSource::ReadOptions and the OMX node broker

A shallow embedding of `media/libstagefright/MediaSource.cpp` (the
`ReadOptions` option bag) and of the broker declared in
`media/libstagefright/include/OMX.h`.

`MediaSource.h` is not among the sources.  The two option masks
`kSeekTo_Option` and `kSkipFrame_Option` it declares are therefore taken as
parameters of the operations that mention them; the enumeration `SeekMode` is
modelled below.
-/

namespace MediaSource

/-- Modelled from the spec: the enumeration `ReadOptions::SeekMode` is declared
in `MediaSource.h`, which is not among the sources.  `MediaSource.cpp` names
only `SEEK_CLOSEST_SYNC` (the spec's "closest sync point" default); the other
enumerators stand for the seek modes other than the default one. -/
inductive SeekMode where
  | SEEK_PREVIOUS_SYNC
  | SEEK_NEXT_SYNC
  | SEEK_CLOSEST_SYNC
  | SEEK_CLOSEST
  deriving DecidableEq, Repr

/-- Number of values of the `uint32_t` field `mOptions`. -/
def UINT32_RANGE : Nat := 2 ^ 32

/-- The C++ expression `~mask` converted to `uint32_t`: the 32-bit complement. -/
def complement32 (mask : Nat) : Nat := UINT32_RANGE - 1 - mask % UINT32_RANGE

/-- The data members of `MediaSource::ReadOptions`: `uint32_t mOptions`, the
`int64_t` timestamps, and `SeekMode mSeekMode`. -/
structure ReadOptions where
  mOptions : Nat
  mSeekTimeUs : Int
  mSeekMode : SeekMode
  mLatenessUs : Int
  mSkipFrameUntilTimeUs : Int
  deriving DecidableEq, Repr

namespace ReadOptions

/-- The method `ReadOptions::reset()`: assigns `mOptions`, `mSeekTimeUs`, `mLatenessUs`
and `mSkipFrameUntilTimeUs`; `mSeekMode` is not assigned. -/
def reset (s : ReadOptions) : ReadOptions :=
  { s with
    mOptions := 0
    mSeekTimeUs := 0
    mLatenessUs := 0
    mSkipFrameUntilTimeUs := 0 }

/-- The constructor `ReadOptions::ReadOptions()`: the body is `reset()`, run on the members'
indeterminate initial contents `uninit`. -/
def new (uninit : ReadOptions) : ReadOptions :=
  reset uninit

/-- The method `ReadOptions::setSeekTo(time_us, mode)`. -/
def setSeekTo (kSeekTo_Option : Nat) (s : ReadOptions) (time_us : Int) (mode : SeekMode) :
    ReadOptions :=
  { s with
    mOptions := (s.mOptions ||| kSeekTo_Option) % UINT32_RANGE
    mSeekTimeUs := time_us
    mSeekMode := mode }

/-- The method `ReadOptions::clearSeekTo()`. -/
def clearSeekTo (kSeekTo_Option : Nat) (s : ReadOptions) : ReadOptions :=
  { s with
    mOptions := s.mOptions &&& complement32 kSeekTo_Option
    mSeekTimeUs := 0
    mSeekMode := SeekMode.SEEK_CLOSEST_SYNC }

/-- The method `ReadOptions::getSeekTo(&time_us, &mode)`: the returned flag, then the two
values written through the out-pointers. -/
def getSeekTo (kSeekTo_Option : Nat) (s : ReadOptions) : Bool × Int × SeekMode :=
  (decide ((s.mOptions &&& kSeekTo_Option) ≠ 0), s.mSeekTimeUs, s.mSeekMode)

/-- The method `ReadOptions::clearSkipFrame()`. -/
def clearSkipFrame (kSkipFrame_Option : Nat) (s : ReadOptions) : ReadOptions :=
  { s with
    mOptions := s.mOptions &&& complement32 kSkipFrame_Option
    mSkipFrameUntilTimeUs := 0 }

/-- The method `ReadOptions::setSkipFrame(timeUs)`. -/
def setSkipFrame (kSkipFrame_Option : Nat) (s : ReadOptions) (timeUs : Int) : ReadOptions :=
  { s with
    mOptions := (s.mOptions ||| kSkipFrame_Option) % UINT32_RANGE
    mSkipFrameUntilTimeUs := timeUs }

/-- The method `ReadOptions::getSkipFrame(&timeUs)`: the returned flag, then the value
written through the out-pointer. -/
def getSkipFrame (kSkipFrame_Option : Nat) (s : ReadOptions) : Bool × Int :=
  (decide ((s.mOptions &&& kSkipFrame_Option) ≠ 0), s.mSkipFrameUntilTimeUs)

/-- The method `ReadOptions::setLateBy(lateness_us)`. -/
def setLateBy (s : ReadOptions) (lateness_us : Int) : ReadOptions :=
  { s with mLatenessUs := lateness_us }

/-- The method `ReadOptions::getLateBy()`. -/
def getLateBy (s : ReadOptions) : Int :=
  s.mLatenessUs

/-- One mutating call on a `ReadOptions` value, with its arguments. -/
inductive Op where
  | reset
  | setSeekTo (time_us : Int) (mode : SeekMode)
  | clearSeekTo
  | setSkipFrame (timeUs : Int)
  | clearSkipFrame
  | setLateBy (lateness_us : Int)
  deriving DecidableEq, Repr

/-- The effect of one call on the value. -/
def step (kSeekTo_Option kSkipFrame_Option : Nat) (s : ReadOptions) : Op → ReadOptions
  | Op.reset => reset s
  | Op.setSeekTo time_us mode => setSeekTo kSeekTo_Option s time_us mode
  | Op.clearSeekTo => clearSeekTo kSeekTo_Option s
  | Op.setSkipFrame timeUs => setSkipFrame kSkipFrame_Option s timeUs
  | Op.clearSkipFrame => clearSkipFrame kSkipFrame_Option s
  | Op.setLateBy lateness_us => setLateBy s lateness_us

/-- The value after a sequence of calls, first call first. -/
def run (kSeekTo_Option kSkipFrame_Option : Nat) (s : ReadOptions) (ops : List Op) :
    ReadOptions :=
  ops.foldl (step kSeekTo_Option kSkipFrame_Option) s

/-- The state property behind the getters' "not set" answers: a timestamp whose
option bit is absent is zero. -/
def AbsentIsZero (kSeekTo_Option kSkipFrame_Option : Nat) (s : ReadOptions) : Prop :=
  (s.mOptions &&& kSeekTo_Option = 0 → s.mSeekTimeUs = 0) ∧
  (s.mOptions &&& kSkipFrame_Option = 0 → s.mSkipFrameUntilTimeUs = 0)

/-- What the spec says `getLateBy()` returns, read off the history of calls
on a newly constructed value, most recent call first: the argument of the most
recent `setLateBy` if it comes after the last `reset`, and 0 if a `reset` or
the construction comes first. -/
def latenessOfHistory : List Op → Int
  | [] => 0
  | Op.reset :: _ => 0
  | Op.setLateBy lateness_us :: _ => lateness_us
  | Op.setSeekTo _ _ :: earlier => latenessOfHistory earlier
  | Op.clearSeekTo :: earlier => latenessOfHistory earlier
  | Op.setSkipFrame _ :: earlier => latenessOfHistory earlier
  | Op.clearSkipFrame :: earlier => latenessOfHistory earlier

end ReadOptions

/-- A mask of the option bitmap that has exactly one of the 32 bits set. -/
def SingleBit (mask : Nat) : Prop := ∃ i, i < 32 ∧ mask = 2 ^ i

end MediaSource

/-! ## The node broker declared in `OMX.h`

`OMX.h` declares the broker's members and operations; the file that defines
them is not among the sources, so the operations below follow the spec
(§3, §4.1, §4.3, §6, §7).  The member names and the table types are those of the
class declaration. -/

/-- Modelled from the spec: the status a broker call returns; `status_t` and
its values are not among the sources.  `OK` and the error kinds of §7, with
`ComponentFailure` for a status passed through from a component. -/
inductive Status where
  | OK
  | InvalidHandle
  | InvalidArgument
  | InvalidState
  | NotFound
  | ResourceExhausted
  | Unsupported
  | ComponentFailure (code : Int)
  deriving DecidableEq, Repr

/-- Modelled from the spec: the handle type `node_id` (declared in
`media/IOMX.h`, not among the sources): the spec's "opaque, broker-generated
integer identifier" (§3). -/
abbrev node_id := Nat

/-- Modelled from the spec: an observer (`IOMXObserver` is not among the
sources), known to the broker by the connection identity it answers on. -/
structure IOMXObserver where
  asBinder : Nat
  deriving DecidableEq, Repr

/-- Number of values of the `int32_t` member `mNodeCounter`. -/
def COUNTER_RANGE : Nat := 2 ^ 32

/-- Modelled from the spec: the Component Registry collaborator (`OMXMaster`
is declared but not defined in the sources; §6: `find`, `instantiate`,
`destroy`).  `registered` are the names `find` resolves, `capacity` bounds the
components existing at once, `live` are the components instantiated and not
destroyed, each identified by its creation number, `created` counts the
components ever instantiated, and `destroyed` logs the `destroy` calls. -/
structure OMXMaster where
  registered : List String
  capacity : Nat
  created : Nat
  live : List Nat
  destroyed : List Nat
  deriving DecidableEq, Repr

namespace OMXMaster

/-- Modelled from the spec: `find(name)` followed by `instantiate` (§6):
`NotFound` when no component matches the name, `ResourceExhausted` when the
registry is at capacity, otherwise a new component. -/
def makeComponentInstance (m : OMXMaster) (name : String) : Except Status (Nat × OMXMaster) :=
  if name ∈ m.registered then
    if m.live.length < m.capacity then
      Except.ok (m.created + 1,
        { m with created := m.created + 1, live := (m.created + 1) :: m.live })
    else
      Except.error Status.ResourceExhausted
  else
    Except.error Status.NotFound

/-- Modelled from the spec: `destroy(instance)` (§6). -/
def destroyComponentInstance (m : OMXMaster) (component : Nat) : OMXMaster :=
  { m with
    live := m.live.filter (fun c => c ≠ component)
    destroyed := component :: m.destroyed }

end OMXMaster

/-- Modelled from the spec: a Node Instance (`OMXNodeInstance` is declared but
not defined in the sources; §3): the underlying component reference, the owning
client's connection identity, and the component name used to create it. -/
structure OMXNodeInstance where
  component : Nat
  owner : Nat
  name : String
  deriving DecidableEq, Repr

/-- Modelled from the spec: an asynchronous event of a node (§4.3), one
constructor for each callback declared in `OMX.h`, with the callback's
arguments other than the handle. -/
inductive NodeEvent where
  | OnEvent (eEvent nData1 nData2 pEventData : Nat)
  | OnEmptyBufferDone (pBuffer : Nat)
  | OnFillBufferDone (pBuffer : Nat)
  deriving DecidableEq, Repr

/-- Modelled from the spec: the dispatch binding of a handle
(`OMX::CallbackDispatcher` is declared but not defined in the sources; §3,
§4.3): the observer registered for the node, and the events produced by the
node and not yet delivered, oldest first. -/
structure CallbackDispatcher where
  observer : IOMXObserver
  mQueue : List NodeEvent := []
  deriving DecidableEq, Repr

/-- The data members of class `OMX`: `mMaster`, `mNodeCounter`, and the three
`KeyedVector` tables `mLiveNodes` (connection identity, instance),
`mNodeIDToInstance` (handle, instance) and `mDispatchers` (handle,
dispatcher).  `mNodeCounter` is declared `int32_t`: the field holds its 32-bit
pattern, a number below `COUNTER_RANGE`, and advancing it wraps.  `KeyedVector`
is not among the sources; a table is the list of its key-value entries, and
adding a key that is present replaces its entry, in all three tables alike. -/
structure OMX where
  mMaster : OMXMaster
  mNodeCounter : Nat
  mLiveNodes : List (Nat × OMXNodeInstance)
  mNodeIDToInstance : List (node_id × OMXNodeInstance)
  mDispatchers : List (node_id × CallbackDispatcher)
  deriving DecidableEq, Repr

/-- Modelled from the spec: the operations of a node that the broker forwards
(§4.1), with the arguments of their declarations in `OMX.h` other than the
handle; buffers and parameter blocks are represented by their sizes and
identifiers. -/
inductive NodeCall where
  | sendCommand (cmd : Nat) (param : Int)
  | getParameter (index size : Nat)
  | setParameter (index size : Nat)
  | getConfig (index size : Nat)
  | setConfig (index size : Nat)
  | useBuffer (port_index size : Nat)
  | allocateBuffer (port_index size : Nat)
  | allocateBufferWithBackup (port_index size : Nat)
  | freeBuffer (port_index buffer : Nat)
  | fillBuffer (buffer : Nat)
  | emptyBuffer (buffer range_offset range_length flags : Nat) (timestamp : Int)
  | getExtensionIndex (parameter_name : String)
  deriving DecidableEq, Repr

namespace OMX

/-- Modelled from the spec: the value a table holds for a key, if any
(`KeyedVector` is not among the sources; a handle resolves to at most one
instance, §3). -/
def valueFor {V : Type} (table : List (node_id × V)) (key : node_id) : Option V :=
  (table.find? (fun e => decide (e.1 = key))).map Prod.snd

/-- Modelled from the spec: a table with the key removed (`KeyedVector` is not
among the sources). -/
def removeItem {V : Type} (table : List (node_id × V)) (key : node_id) : List (node_id × V) :=
  table.filter (fun e => decide (e.1 ≠ key))

/-- Modelled from the spec: `OMX::OMX()`: no handle allocated, empty tables. -/
def new (master : OMXMaster) : OMX :=
  { mMaster := master
    mNodeCounter := 0
    mLiveNodes := []
    mNodeIDToInstance := []
    mDispatchers := [] }

/-- Modelled from the spec: `OMX::findInstance(node)`: resolves a handle to its
Node Instance through `mNodeIDToInstance` (§4.1). -/
def findInstance (s : OMX) (node : node_id) : Option OMXNodeInstance :=
  valueFor s.mNodeIDToInstance node

/-- Modelled from the spec: `OMX::findDispatcher(node)`. -/
def findDispatcher (s : OMX) (node : node_id) : Option CallbackDispatcher :=
  valueFor s.mDispatchers node

/-- Modelled from the spec: `OMX::makeNodeID(instance)`: "generates a fresh
unique handle", the 32-bit node counter advanced by one (the first handle is 1,
§8; past the last value the counter wraps), and records the (handle, instance)
association. -/
def makeNodeID (s : OMX) (inst : OMXNodeInstance) : node_id × OMX :=
  ((s.mNodeCounter + 1) % COUNTER_RANGE,
   { s with
     mNodeCounter := (s.mNodeCounter + 1) % COUNTER_RANGE
     mNodeIDToInstance :=
       ((s.mNodeCounter + 1) % COUNTER_RANGE, inst)
         :: removeItem s.mNodeIDToInstance ((s.mNodeCounter + 1) % COUNTER_RANGE) })

/-- Modelled from the spec: `OMX::allocateNode(name, observer, &node)` (§4.1):
asks the registry to instantiate `name`; on success generates a fresh handle,
records the three associations, each replacing the entry its table has for the
key, and returns the handle; otherwise returns the registry's `NotFound` or
`ResourceExhausted` and changes nothing. -/
def allocateNode (s : OMX) (name : String) (observer : IOMXObserver) :
    Except Status node_id × OMX :=
  match s.mMaster.makeComponentInstance name with
  | Except.error status => (Except.error status, s)
  | Except.ok (component, master) =>
    let inst : OMXNodeInstance :=
      { component := component, owner := observer.asBinder, name := name }
    let made := makeNodeID { s with mMaster := master } inst
    (Except.ok made.1,
     { made.2 with
       mLiveNodes := (observer.asBinder, inst) :: removeItem made.2.mLiveNodes observer.asBinder
       mDispatchers := (made.1, { observer := observer }) :: removeItem made.2.mDispatchers made.1 })

/-- Modelled from the spec: `OMX::freeNode(node)` (§4.1): `InvalidHandle` if
the handle is unknown; otherwise destroys the Node Instance, removes all three
table entries and detaches the dispatch channel. -/
def freeNode (s : OMX) (node : node_id) : Status × OMX :=
  match findInstance s node with
  | none => (Status.InvalidHandle, s)
  | some inst =>
    (Status.OK,
     { s with
       mMaster := s.mMaster.destroyComponentInstance inst.component
       mLiveNodes := s.mLiveNodes.filter (fun e => decide (e.2 ≠ inst))
       mNodeIDToInstance := removeItem s.mNodeIDToInstance node
       mDispatchers := removeItem s.mDispatchers node })

/-- Modelled from the spec: `sendCommand`, `getParameter`, `setParameter`,
`getConfig`, `setConfig`, `useBuffer`, `allocateBuffer`,
`allocateBufferWithBackup`, `freeBuffer`, `fillBuffer`, `emptyBuffer` and
`getExtensionIndex` (§4.1): each resolves the handle, fails with
`InvalidHandle` if it is unknown, and otherwise returns the instance's own
status unchanged.  `nodeStatus` is the behaviour of the Node Instances. -/
def forwardCall (nodeStatus : OMXNodeInstance → NodeCall → Status) (s : OMX) (node : node_id)
    (call : NodeCall) : Status :=
  match findInstance s node with
  | none => Status.InvalidHandle
  | some inst => nodeStatus inst call

/-- One allocate or free call on the broker, with its arguments. -/
inductive Call where
  | allocateNode (name : String) (observer : IOMXObserver)
  | freeNode (node : node_id)
  deriving DecidableEq, Repr

/-- The broker after one call. -/
def step (s : OMX) : Call → OMX
  | Call.allocateNode name observer => (allocateNode s name observer).2
  | Call.freeNode node => (freeNode s node).2

/-- The broker after a sequence of calls, first call first. -/
def run (s : OMX) (calls : List Call) : OMX :=
  calls.foldl step s

/-- Modelled from the spec: `OMX::invalidateNodeID_l(node)`, the spec's
`invalidateNode` (§4.1): "performs the same teardown as `freeNode`" without a
client call. -/
def invalidateNodeID_l (s : OMX) (node : node_id) : OMX :=
  (freeNode s node).2

/-- Modelled from the spec: `OMX::invalidateNodeID(node)`: `invalidateNodeID_l`
run with `mLock` held. -/
def invalidateNodeID (s : OMX) (node : node_id) : OMX :=
  invalidateNodeID_l s node

/-- Modelled from the spec: an event produced by a node enters the node's
dispatch channel (§4.3); it is discarded when the handle has no dispatch
binding. -/
def postEvent (s : OMX) (node : node_id) (event : NodeEvent) : OMX :=
  match findDispatcher s node with
  | none => s
  | some dispatcher =>
    { s with
      mDispatchers :=
        (node, { dispatcher with mQueue := dispatcher.mQueue ++ [event] })
          :: removeItem s.mDispatchers node }

/-- Modelled from the spec: `OMX::OnEvent(node, eEvent, nData1, nData2,
pEventData)`. -/
def OnEvent (s : OMX) (node : node_id) (eEvent nData1 nData2 pEventData : Nat) : OMX :=
  postEvent s node (NodeEvent.OnEvent eEvent nData1 nData2 pEventData)

/-- Modelled from the spec: `OMX::OnEmptyBufferDone(node, pBuffer)`. -/
def OnEmptyBufferDone (s : OMX) (node : node_id) (pBuffer : Nat) : OMX :=
  postEvent s node (NodeEvent.OnEmptyBufferDone pBuffer)

/-- Modelled from the spec: `OMX::OnFillBufferDone(node, pBuffer)`. -/
def OnFillBufferDone (s : OMX) (node : node_id) (pBuffer : Nat) : OMX :=
  postEvent s node (NodeEvent.OnFillBufferDone pBuffer)

end OMX

/-! ## Bit-level facts about the 32-bit option word -/

namespace MediaSource

theorem testBit_complement32 (k i : Nat) :
    (complement32 k).testBit i = (decide (i < 32) && !k.testBit i) := by
  have hlt : k % 2 ^ 32 < 2 ^ 32 := Nat.mod_lt _ (by norm_num)
  have hform : complement32 k = 2 ^ 32 - (k % 2 ^ 32 + 1) := by
    unfold complement32 UINT32_RANGE; omega
  rw [hform, Nat.testBit_two_pow_sub_succ hlt, Nat.testBit_mod_two_pow]
  by_cases h : i < 32 <;> simp [h]

theorem testBit_lt32 {k i : Nat} (hk : k < 2 ^ 32) (hi : k.testBit i = true) : i < 32 := by
  by_contra hge
  have hle : 2 ^ 32 ≤ 2 ^ i := Nat.pow_le_pow_right (by norm_num) (by omega)
  have := Nat.testBit_lt_two_pow (Nat.lt_of_lt_of_le hk hle)
  simp [this] at hi

theorem disjoint_bits {a b : Nat} (hab : a &&& b = 0) (i : Nat) (hb : b.testBit i = true) :
    a.testBit i = false := by
  have := congrArg (fun n => n.testBit i) hab
  simp [Nat.testBit_and, hb] at this
  exact this

/-- Setting the bits of `k` makes the test against `k` read back `k`. -/
theorem or_mod_and_self (m k : Nat) (hk : k < 2 ^ 32) :
    ((m ||| k) % UINT32_RANGE) &&& k = k := by
  apply Nat.eq_of_testBit_eq
  intro i
  simp only [UINT32_RANGE, Nat.testBit_and, Nat.testBit_mod_two_pow, Nat.testBit_or]
  by_cases hi : k.testBit i = true
  · have := testBit_lt32 hk hi
    simp [hi, this]
  · simp [hi]

/-- Clearing the bits of `k` makes the test against `k` read zero. -/
theorem and_complement32_and_self (m k : Nat) :
    (m &&& complement32 k) &&& k = 0 := by
  apply Nat.eq_of_testBit_eq
  intro i
  simp only [Nat.testBit_and, testBit_complement32, Nat.zero_testBit]
  cases k.testBit i <;> simp

/-- Setting the bits of `a` does not change the test against a disjoint `b`. -/
theorem or_mod_and_other (m a b : Nat) (hab : a &&& b = 0) (hb : b < 2 ^ 32) :
    ((m ||| a) % UINT32_RANGE) &&& b = m &&& b := by
  apply Nat.eq_of_testBit_eq
  intro i
  simp only [UINT32_RANGE, Nat.testBit_and, Nat.testBit_mod_two_pow, Nat.testBit_or]
  by_cases hi : b.testBit i = true
  · have h32 := testBit_lt32 hb hi
    have ha := disjoint_bits hab i hi
    simp [hi, h32, ha]
  · simp [hi]

/-- Clearing the bits of `a` does not change the test against a disjoint `b`. -/
theorem and_complement32_and_other (m a b : Nat) (hab : a &&& b = 0) (hb : b < 2 ^ 32) :
    (m &&& complement32 a) &&& b = m &&& b := by
  apply Nat.eq_of_testBit_eq
  intro i
  simp only [Nat.testBit_and, testBit_complement32]
  by_cases hi : b.testBit i = true
  · have h32 := testBit_lt32 hb hi
    have ha := disjoint_bits hab i hi
    simp [hi, h32, ha]
  · simp [hi]

theorem SingleBit.lt {k : Nat} (h : SingleBit k) : k < 2 ^ 32 := by
  obtain ⟨i, hi, rfl⟩ := h
  exact Nat.pow_lt_pow_right (by norm_num) hi

theorem SingleBit.ne_zero {k : Nat} (h : SingleBit k) : k ≠ 0 := by
  obtain ⟨i, _, rfl⟩ := h
  exact (Nat.pos_pow_of_pos i (by norm_num)).ne'

theorem SingleBit.disjoint {a b : Nat} (ha : SingleBit a) (hb : SingleBit b) (hne : a ≠ b) :
    a &&& b = 0 := by
  obtain ⟨i, _, rfl⟩ := ha
  obtain ⟨j, _, rfl⟩ := hb
  have hij : i ≠ j := fun h => hne (by rw [h])
  apply Nat.eq_of_testBit_eq
  intro n
  simp only [Nat.testBit_and, Nat.testBit_two_pow, Nat.zero_testBit]
  by_cases h1 : i = n
  · by_cases h2 : j = n
    · exact absurd (h1.trans h2.symm) hij
    · simp [h1, h2]
  · simp [h1]

theorem singleBit_one : SingleBit 1 := ⟨0, by decide, by decide⟩

theorem singleBit_two : SingleBit 2 := ⟨1, by decide, by decide⟩

end MediaSource


/-! ## ReadOptions: the getters after each mutator -/

namespace MediaSource.ReadOptions

theorem getSeekTo_setSkipFrame (kSeekTo_Option kSkipFrame_Option : Nat)
    (hdisj : kSkipFrame_Option &&& kSeekTo_Option = 0) (hlt : kSeekTo_Option < 2 ^ 32)
    (s : ReadOptions) (t : Int) :
    getSeekTo kSeekTo_Option (setSkipFrame kSkipFrame_Option s t) = getSeekTo kSeekTo_Option s := by
  simp only [getSeekTo, setSkipFrame, or_mod_and_other _ _ _ hdisj hlt]

theorem getSeekTo_clearSkipFrame (kSeekTo_Option kSkipFrame_Option : Nat)
    (hdisj : kSkipFrame_Option &&& kSeekTo_Option = 0) (hlt : kSeekTo_Option < 2 ^ 32)
    (s : ReadOptions) :
    getSeekTo kSeekTo_Option (clearSkipFrame kSkipFrame_Option s) = getSeekTo kSeekTo_Option s := by
  simp only [getSeekTo, clearSkipFrame, and_complement32_and_other _ _ _ hdisj hlt]

theorem getSkipFrame_setSeekTo (kSeekTo_Option kSkipFrame_Option : Nat)
    (hdisj : kSeekTo_Option &&& kSkipFrame_Option = 0) (hlt : kSkipFrame_Option < 2 ^ 32)
    (s : ReadOptions) (t : Int) (mode : SeekMode) :
    getSkipFrame kSkipFrame_Option (setSeekTo kSeekTo_Option s t mode)
      = getSkipFrame kSkipFrame_Option s := by
  simp only [getSkipFrame, setSeekTo, or_mod_and_other _ _ _ hdisj hlt]

theorem getSkipFrame_clearSeekTo (kSeekTo_Option kSkipFrame_Option : Nat)
    (hdisj : kSeekTo_Option &&& kSkipFrame_Option = 0) (hlt : kSkipFrame_Option < 2 ^ 32)
    (s : ReadOptions) :
    getSkipFrame kSkipFrame_Option (clearSeekTo kSeekTo_Option s)
      = getSkipFrame kSkipFrame_Option s := by
  simp only [getSkipFrame, clearSeekTo, and_complement32_and_other _ _ _ hdisj hlt]

theorem absentIsZero_reset (a b : Nat) (s : ReadOptions) : AbsentIsZero a b (reset s) :=
  ⟨fun _ => rfl, fun _ => rfl⟩

theorem absentIsZero_step (a b : Nat) (ha : SingleBit a) (hb : SingleBit b) (hne : a ≠ b)
    (s : ReadOptions) (op : Op) (h : AbsentIsZero a b s) : AbsentIsZero a b (step a b s op) := by
  have hab : a &&& b = 0 := SingleBit.disjoint ha hb hne
  have hba : b &&& a = 0 := SingleBit.disjoint hb ha (Ne.symm hne)
  obtain ⟨h1, h2⟩ := h
  cases op with
  | reset => exact absentIsZero_reset a b s
  | setSeekTo t mode =>
    refine ⟨fun h0 => ?_, fun h0 => ?_⟩
    · simp only [step, setSeekTo, or_mod_and_self _ _ ha.lt] at h0
      exact absurd h0 ha.ne_zero
    · simp only [step, setSeekTo, or_mod_and_other _ _ _ hab hb.lt] at h0
      exact h2 h0
  | clearSeekTo =>
    refine ⟨fun _ => rfl, fun h0 => ?_⟩
    simp only [step, clearSeekTo, and_complement32_and_other _ _ _ hab hb.lt] at h0
    exact h2 h0
  | setSkipFrame t =>
    refine ⟨fun h0 => ?_, fun h0 => ?_⟩
    · simp only [step, setSkipFrame, or_mod_and_other _ _ _ hba ha.lt] at h0
      exact h1 h0
    · simp only [step, setSkipFrame, or_mod_and_self _ _ hb.lt] at h0
      exact absurd h0 hb.ne_zero
  | clearSkipFrame =>
    refine ⟨fun h0 => ?_, fun _ => rfl⟩
    simp only [step, clearSkipFrame, and_complement32_and_other _ _ _ hba ha.lt] at h0
    exact h1 h0
  | setLateBy t => exact ⟨h1, h2⟩

theorem absentIsZero_run (a b : Nat) (ha : SingleBit a) (hb : SingleBit b) (hne : a ≠ b)
    (ops : List Op) : ∀ s : ReadOptions, AbsentIsZero a b s → AbsentIsZero a b (run a b s ops) := by
  induction ops with
  | nil => intro s h; exact h
  | cons op rest ih =>
    intro s h
    exact ih (step a b s op) (absentIsZero_step a b ha hb hne s op h)

end MediaSource.ReadOptions

/-! ## ReadOptions: the claims -/

namespace MediaSource.ReadOptions

/-- C1 (code defect): after `setSeekTo(5, SEEK_NEXT_SYNC)` on a newly constructed
value, `reset()` leaves the seek mode untouched, so `getSeekTo()` reports "not
set" with time 0 but mode `SEEK_NEXT_SYNC`, which is not the default
`SEEK_CLOSEST_SYNC` that `clearSeekTo()` restores. -/
theorem reset_leaves_seek_mode (kSeekTo_Option : Nat) :
    getSeekTo kSeekTo_Option
        (reset (setSeekTo kSeekTo_Option
          (new ⟨0, 0, SeekMode.SEEK_CLOSEST_SYNC, 0, 0⟩) 5 SeekMode.SEEK_NEXT_SYNC))
      = (false, 0, SeekMode.SEEK_NEXT_SYNC) ∧
    (getSeekTo kSeekTo_Option
        (reset (setSeekTo kSeekTo_Option
          (new ⟨0, 0, SeekMode.SEEK_CLOSEST_SYNC, 0, 0⟩) 5 SeekMode.SEEK_NEXT_SYNC))).2.2
      ≠ SeekMode.SEEK_CLOSEST_SYNC ∧
    (getSeekTo kSeekTo_Option
        (clearSeekTo kSeekTo_Option (setSeekTo kSeekTo_Option
          (new ⟨0, 0, SeekMode.SEEK_CLOSEST_SYNC, 0, 0⟩) 5 SeekMode.SEEK_NEXT_SYNC))).2.2
      = SeekMode.SEEK_CLOSEST_SYNC := by
  refine ⟨?_, ?_, ?_⟩
  · simp [getSeekTo, reset, setSeekTo]
  · simp [getSeekTo, reset, setSeekTo]
  · simp [getSeekTo, clearSeekTo]

/-- C2: for every state, timestamp and mode, `setSeekTo(T, MODE)` followed by
`getSeekTo()` returns true and outputs exactly `T` and `MODE`, the mask
`kSeekTo_Option` being a nonzero 32-bit value. -/
theorem getSeekTo_setSeekTo (kSeekTo_Option : Nat) (hne : kSeekTo_Option ≠ 0)
    (hlt : kSeekTo_Option < 2 ^ 32) (s : ReadOptions) (T : Int) (MODE : SeekMode) :
    getSeekTo kSeekTo_Option (setSeekTo kSeekTo_Option s T MODE) = (true, T, MODE) := by
  simp [getSeekTo, setSeekTo, or_mod_and_self _ _ hlt, hne]

theorem getSeekTo_setSeekTo_witness :
    (1 : Nat) ≠ 0 ∧ (1 : Nat) < 2 ^ 32 ∧
    getSeekTo 1 (setSeekTo 1 ⟨2, 7, SeekMode.SEEK_CLOSEST_SYNC, 3, 9⟩
        (-9223372036854775808) SeekMode.SEEK_CLOSEST)
      = (true, -9223372036854775808, SeekMode.SEEK_CLOSEST) :=
  ⟨by decide, by decide, getSeekTo_setSeekTo 1 (by decide) (by decide) _ _ _⟩

/-- C3: for every state, `reset()` followed by `getSeekTo()` returns false
("not set") and outputs seek time 0. -/
theorem getSeekTo_reset (kSeekTo_Option : Nat) (s : ReadOptions) :
    (getSeekTo kSeekTo_Option (reset s)).1 = false ∧
    (getSeekTo kSeekTo_Option (reset s)).2.1 = 0 := by
  simp [getSeekTo, reset]

/-- C4: for every state, `clearSeekTo()` followed by `getSeekTo()` returns false
and outputs seek time 0 and the default mode `SEEK_CLOSEST_SYNC`. -/
theorem getSeekTo_clearSeekTo (kSeekTo_Option : Nat) (s : ReadOptions) :
    getSeekTo kSeekTo_Option (clearSeekTo kSeekTo_Option s)
      = (false, 0, SeekMode.SEEK_CLOSEST_SYNC) := by
  simp [getSeekTo, clearSeekTo, and_complement32_and_self]

/-- C5: for every state, after `reset()` `getLateBy()` returns 0 and
`getSkipFrame()` returns false with output timestamp 0. -/
theorem getLateBy_getSkipFrame_reset (kSkipFrame_Option : Nat) (s : ReadOptions) :
    getLateBy (reset s) = 0 ∧ getSkipFrame kSkipFrame_Option (reset s) = (false, 0) := by
  simp [getLateBy, getSkipFrame, reset]

/-- C6: with the two masks distinct single bits, `getSkipFrame()` returns the
same flag and timestamp after `setSeekTo(T, MODE)` and after `clearSeekTo()` as
before the call. -/
theorem getSkipFrame_seek_frame (kSeekTo_Option kSkipFrame_Option : Nat)
    (hSeek : SingleBit kSeekTo_Option) (hSkip : SingleBit kSkipFrame_Option)
    (hne : kSeekTo_Option ≠ kSkipFrame_Option)
    (s : ReadOptions) (T : Int) (MODE : SeekMode) :
    getSkipFrame kSkipFrame_Option (setSeekTo kSeekTo_Option s T MODE)
      = getSkipFrame kSkipFrame_Option s ∧
    getSkipFrame kSkipFrame_Option (clearSeekTo kSeekTo_Option s)
      = getSkipFrame kSkipFrame_Option s :=
  ⟨getSkipFrame_setSeekTo _ _ (SingleBit.disjoint hSeek hSkip hne) hSkip.lt s T MODE,
   getSkipFrame_clearSeekTo _ _ (SingleBit.disjoint hSeek hSkip hne) hSkip.lt s⟩

theorem getSkipFrame_seek_frame_witness :
    SingleBit 1 ∧ SingleBit 2 ∧ (1 : Nat) ≠ 2 ∧
    getSkipFrame 2 (setSeekTo 1 ⟨2, 0, SeekMode.SEEK_CLOSEST_SYNC, 0, 40⟩ 5 SeekMode.SEEK_NEXT_SYNC)
      = getSkipFrame 2 ⟨2, 0, SeekMode.SEEK_CLOSEST_SYNC, 0, 40⟩ ∧
    getSkipFrame 2 (clearSeekTo 1 ⟨2, 0, SeekMode.SEEK_CLOSEST_SYNC, 0, 40⟩)
      = getSkipFrame 2 ⟨2, 0, SeekMode.SEEK_CLOSEST_SYNC, 0, 40⟩ :=
  ⟨singleBit_one, singleBit_two, by decide,
   getSkipFrame_seek_frame 1 2 singleBit_one singleBit_two (by decide) _ _ _⟩

/-- C7: with the two masks distinct single bits, the result of `getSeekTo()`
(flag, time and mode) is the same after `setSkipFrame(t)`, after
`clearSkipFrame()` and after `setLateBy(t)` as before the call. -/
theorem getSeekTo_other_fields_frame (kSeekTo_Option kSkipFrame_Option : Nat)
    (hSeek : SingleBit kSeekTo_Option) (hSkip : SingleBit kSkipFrame_Option)
    (hne : kSeekTo_Option ≠ kSkipFrame_Option)
    (s : ReadOptions) (t : Int) :
    getSeekTo kSeekTo_Option (setSkipFrame kSkipFrame_Option s t) = getSeekTo kSeekTo_Option s ∧
    getSeekTo kSeekTo_Option (clearSkipFrame kSkipFrame_Option s) = getSeekTo kSeekTo_Option s ∧
    getSeekTo kSeekTo_Option (setLateBy s t) = getSeekTo kSeekTo_Option s :=
  ⟨getSeekTo_setSkipFrame _ _ (SingleBit.disjoint hSkip hSeek (Ne.symm hne)) hSeek.lt s t,
   getSeekTo_clearSkipFrame _ _ (SingleBit.disjoint hSkip hSeek (Ne.symm hne)) hSeek.lt s,
   rfl⟩

theorem getSeekTo_other_fields_frame_witness :
    SingleBit 1 ∧ SingleBit 2 ∧ (1 : Nat) ≠ 2 ∧
    getSeekTo 1 (setSkipFrame 2 ⟨1, 11, SeekMode.SEEK_NEXT_SYNC, 0, 0⟩ 6)
      = getSeekTo 1 ⟨1, 11, SeekMode.SEEK_NEXT_SYNC, 0, 0⟩ ∧
    getSeekTo 1 (clearSkipFrame 2 ⟨1, 11, SeekMode.SEEK_NEXT_SYNC, 0, 0⟩)
      = getSeekTo 1 ⟨1, 11, SeekMode.SEEK_NEXT_SYNC, 0, 0⟩ ∧
    getSeekTo 1 (setLateBy ⟨1, 11, SeekMode.SEEK_NEXT_SYNC, 0, 0⟩ 6)
      = getSeekTo 1 ⟨1, 11, SeekMode.SEEK_NEXT_SYNC, 0, 0⟩ :=
  ⟨singleBit_one, singleBit_two, by decide,
   getSeekTo_other_fields_frame 1 2 singleBit_one singleBit_two (by decide) _ _⟩

/-- C8: with the two masks distinct single bits, in every state reached from a
newly constructed value by a finite sequence of `reset`, `setSeekTo`,
`clearSeekTo`, `setSkipFrame`, `clearSkipFrame` and `setLateBy` calls, if
`getSeekTo()` returns false its output time is 0, and if `getSkipFrame()`
returns false its output time is 0. -/
theorem absent_flag_reports_zero (kSeekTo_Option kSkipFrame_Option : Nat)
    (hSeek : SingleBit kSeekTo_Option) (hSkip : SingleBit kSkipFrame_Option)
    (hne : kSeekTo_Option ≠ kSkipFrame_Option)
    (uninit : ReadOptions) (ops : List Op) :
    ((getSeekTo kSeekTo_Option
        (run kSeekTo_Option kSkipFrame_Option (new uninit) ops)).1 = false →
      (getSeekTo kSeekTo_Option
        (run kSeekTo_Option kSkipFrame_Option (new uninit) ops)).2.1 = 0) ∧
    ((getSkipFrame kSkipFrame_Option
        (run kSeekTo_Option kSkipFrame_Option (new uninit) ops)).1 = false →
      (getSkipFrame kSkipFrame_Option
        (run kSeekTo_Option kSkipFrame_Option (new uninit) ops)).2 = 0) := by
  have h := absentIsZero_run kSeekTo_Option kSkipFrame_Option hSeek hSkip hne ops
    (new uninit) (absentIsZero_reset _ _ uninit)
  obtain ⟨h1, h2⟩ := h
  constructor
  · intro hf
    simp only [getSeekTo, decide_eq_false_iff_not, ne_eq, not_not] at hf
    exact h1 hf
  · intro hf
    simp only [getSkipFrame, decide_eq_false_iff_not, ne_eq, not_not] at hf
    exact h2 hf

theorem absent_flag_reports_zero_witness :
    SingleBit 1 ∧ SingleBit 2 ∧ (1 : Nat) ≠ 2 ∧
    (getSeekTo 1 (run 1 2 (new ⟨3, 8, SeekMode.SEEK_CLOSEST, 4, 12⟩)
        [Op.setSeekTo 7 SeekMode.SEEK_NEXT_SYNC, Op.setSkipFrame 9, Op.setLateBy 2,
         Op.clearSeekTo])).1 = false ∧
    (getSeekTo 1 (run 1 2 (new ⟨3, 8, SeekMode.SEEK_CLOSEST, 4, 12⟩)
        [Op.setSeekTo 7 SeekMode.SEEK_NEXT_SYNC, Op.setSkipFrame 9, Op.setLateBy 2,
         Op.clearSeekTo])).2.1 = 0 :=
  ⟨singleBit_one, singleBit_two, by decide, by decide,
   (absent_flag_reports_zero 1 2 singleBit_one singleBit_two (by decide)
      ⟨3, 8, SeekMode.SEEK_CLOSEST, 4, 12⟩
      [Op.setSeekTo 7 SeekMode.SEEK_NEXT_SYNC, Op.setSkipFrame 9, Op.setLateBy 2,
       Op.clearSeekTo]).1 (by decide)⟩

end MediaSource.ReadOptions

/-! ## The broker: table lookups -/

namespace OMX

theorem valueFor_removeItem_self {V : Type} (table : List (node_id × V)) (key : node_id) :
    valueFor (removeItem table key) key = none := by
  unfold valueFor removeItem
  have h : (table.filter (fun e => decide (e.1 ≠ key))).find? (fun e => decide (e.1 = key))
      = none := by
    rw [List.find?_eq_none]
    intro e he
    have := (List.mem_filter.mp he).2
    simpa using this
  rw [h]; rfl

theorem findInstance_freeNode_self (s : OMX) (node : node_id) :
    findInstance (freeNode s node).2 node = none := by
  unfold freeNode
  cases hf : findInstance s node with
  | none => simpa using hf
  | some inst => simp only [findInstance]; exact valueFor_removeItem_self _ _

end OMX

/-! ## ReadOptions: lateness, skip-frame round trip, commutation -/

namespace MediaSource

/-- Setting the bits of two masks gives the same word in either order. -/
theorem or_mod_or_mod_comm (m a b : Nat) :
    (((m ||| a) % UINT32_RANGE) ||| b) % UINT32_RANGE
      = (((m ||| b) % UINT32_RANGE) ||| a) % UINT32_RANGE := by
  apply Nat.eq_of_testBit_eq
  intro i
  simp only [UINT32_RANGE, Nat.testBit_mod_two_pow, Nat.testBit_or]
  by_cases h32 : i < 32 <;> cases m.testBit i <;> cases a.testBit i <;> cases b.testBit i <;>
    simp [h32]

/-- Clearing the bits of two masks gives the same word in either order. -/
theorem and_complement32_comm (m a b : Nat) :
    (m &&& complement32 a) &&& complement32 b = (m &&& complement32 b) &&& complement32 a := by
  apply Nat.eq_of_testBit_eq
  intro i
  simp only [Nat.testBit_and, testBit_complement32]
  by_cases h32 : i < 32 <;> cases m.testBit i <;> cases a.testBit i <;> cases b.testBit i <;>
    simp [h32]

/-- Setting the bits of `a` and clearing those of a disjoint `b` gives the same
word in either order. -/
theorem or_mod_and_complement32 (m a b : Nat) (hab : a &&& b = 0) :
    ((m ||| a) % UINT32_RANGE) &&& complement32 b
      = ((m &&& complement32 b) ||| a) % UINT32_RANGE := by
  apply Nat.eq_of_testBit_eq
  intro i
  simp only [UINT32_RANGE, Nat.testBit_and, Nat.testBit_mod_two_pow, Nat.testBit_or,
    testBit_complement32]
  by_cases hb : b.testBit i = true
  · have ha := disjoint_bits hab i hb
    by_cases h32 : i < 32 <;> cases m.testBit i <;> simp [h32, ha, hb]
  · by_cases h32 : i < 32 <;> cases m.testBit i <;> cases a.testBit i <;> simp [h32, hb]

end MediaSource

namespace MediaSource.ReadOptions

theorem run_snoc (a b : Nat) (s : ReadOptions) (ops : List Op) (op : Op) :
    run a b s (ops ++ [op]) = step a b (run a b s ops) op := by
  simp [run, List.foldl_append]

theorem getLateBy_run (a b : Nat) (uninit : ReadOptions) (ops : List Op) :
    getLateBy (run a b (new uninit) ops) = latenessOfHistory ops.reverse := by
  induction ops using List.reverseRecOn with
  | nil => rfl
  | append_singleton earlier op ih =>
    rw [run_snoc, List.reverse_append, List.reverse_singleton, List.singleton_append]
    cases op with
    | reset => rfl
    | setLateBy t => rfl
    | setSeekTo t mode => exact ih
    | clearSeekTo => exact ih
    | setSkipFrame t => exact ih
    | clearSkipFrame => exact ih

/-- C13: for every sequence of calls on a newly constructed value,
`getLateBy()` returns the argument of the most recent `setLateBy` made after
the last `reset()` (or the construction) and 0 if there is none; and
`setSeekTo`, `clearSeekTo`, `setSkipFrame` and `clearSkipFrame` leave the
lateness of every state unchanged. -/
theorem getLateBy_is_last_setLateBy (kSeekTo_Option kSkipFrame_Option : Nat)
    (uninit : ReadOptions) (ops : List Op) (s : ReadOptions) (T t : Int) (MODE : SeekMode) :
    getLateBy (run kSeekTo_Option kSkipFrame_Option (new uninit) ops)
      = latenessOfHistory ops.reverse ∧
    getLateBy (setSeekTo kSeekTo_Option s T MODE) = getLateBy s ∧
    getLateBy (clearSeekTo kSeekTo_Option s) = getLateBy s ∧
    getLateBy (setSkipFrame kSkipFrame_Option s t) = getLateBy s ∧
    getLateBy (clearSkipFrame kSkipFrame_Option s) = getLateBy s :=
  ⟨getLateBy_run _ _ uninit ops, rfl, rfl, rfl, rfl⟩

/-- C14: for every state and timestamp, `setSkipFrame(t)` followed by
`getSkipFrame()` returns true and outputs exactly `t`, and `clearSkipFrame()`
followed by `getSkipFrame()` returns false and outputs 0, the mask
`kSkipFrame_Option` being a nonzero 32-bit value. -/
theorem getSkipFrame_after_set_and_clear (kSkipFrame_Option : Nat)
    (hne : kSkipFrame_Option ≠ 0) (hlt : kSkipFrame_Option < 2 ^ 32)
    (s : ReadOptions) (t : Int) :
    getSkipFrame kSkipFrame_Option (setSkipFrame kSkipFrame_Option s t) = (true, t) ∧
    getSkipFrame kSkipFrame_Option (clearSkipFrame kSkipFrame_Option s) = (false, 0) := by
  constructor
  · simp [getSkipFrame, setSkipFrame, or_mod_and_self _ _ hlt, hne]
  · simp [getSkipFrame, clearSkipFrame, and_complement32_and_self]

theorem getSkipFrame_after_set_and_clear_witness :
    (2 : Nat) ≠ 0 ∧ (2 : Nat) < 2 ^ 32 ∧
    getSkipFrame 2 (setSkipFrame 2 ⟨1, 4, SeekMode.SEEK_CLOSEST, 6, 8⟩ 9223372036854775807)
      = (true, 9223372036854775807) ∧
    getSkipFrame 2 (clearSkipFrame 2 ⟨1, 4, SeekMode.SEEK_CLOSEST, 6, 8⟩) = (false, 0) :=
  ⟨by decide, by decide, getSkipFrame_after_set_and_clear 2 (by decide) (by decide) _ _⟩

/-- C15: when `kSeekTo_Option` and `kSkipFrame_Option` share no bit, each of
`setSeekTo(T, MODE)` and `clearSeekTo()` commutes with each of
`setSkipFrame(t)` and `clearSkipFrame()`: both orders end in the same state. -/
theorem seek_skip_commute (kSeekTo_Option kSkipFrame_Option : Nat)
    (hshare : kSeekTo_Option &&& kSkipFrame_Option = 0)
    (s : ReadOptions) (T t : Int) (MODE : SeekMode) :
    setSkipFrame kSkipFrame_Option (setSeekTo kSeekTo_Option s T MODE) t
      = setSeekTo kSeekTo_Option (setSkipFrame kSkipFrame_Option s t) T MODE ∧
    clearSkipFrame kSkipFrame_Option (setSeekTo kSeekTo_Option s T MODE)
      = setSeekTo kSeekTo_Option (clearSkipFrame kSkipFrame_Option s) T MODE ∧
    setSkipFrame kSkipFrame_Option (clearSeekTo kSeekTo_Option s) t
      = clearSeekTo kSeekTo_Option (setSkipFrame kSkipFrame_Option s t) ∧
    clearSkipFrame kSkipFrame_Option (clearSeekTo kSeekTo_Option s)
      = clearSeekTo kSeekTo_Option (clearSkipFrame kSkipFrame_Option s) := by
  have hshare1 : kSkipFrame_Option &&& kSeekTo_Option = 0 := by
    rw [Nat.land_comm]; exact hshare
  refine ⟨?_, ?_, ?_, ?_⟩
  · simp only [setSkipFrame, setSeekTo, or_mod_or_mod_comm s.mOptions kSeekTo_Option]
  · simp only [clearSkipFrame, setSeekTo, or_mod_and_complement32 _ _ _ hshare]
  · simp only [setSkipFrame, clearSeekTo, or_mod_and_complement32 _ _ _ hshare1]
  · simp only [clearSkipFrame, clearSeekTo, and_complement32_comm s.mOptions kSeekTo_Option]

theorem seek_skip_commute_witness :
    (1 : Nat) &&& 2 = 0 ∧
    setSkipFrame 2 (setSeekTo 1 ⟨0, 0, SeekMode.SEEK_CLOSEST_SYNC, 3, 0⟩ 5 SeekMode.SEEK_NEXT_SYNC) 9
      = setSeekTo 1 (setSkipFrame 2 ⟨0, 0, SeekMode.SEEK_CLOSEST_SYNC, 3, 0⟩ 9) 5
          SeekMode.SEEK_NEXT_SYNC ∧
    clearSkipFrame 2 (setSeekTo 1 ⟨0, 0, SeekMode.SEEK_CLOSEST_SYNC, 3, 0⟩ 5
        SeekMode.SEEK_NEXT_SYNC)
      = setSeekTo 1 (clearSkipFrame 2 ⟨0, 0, SeekMode.SEEK_CLOSEST_SYNC, 3, 0⟩) 5
          SeekMode.SEEK_NEXT_SYNC ∧
    setSkipFrame 2 (clearSeekTo 1 ⟨0, 0, SeekMode.SEEK_CLOSEST_SYNC, 3, 0⟩) 9
      = clearSeekTo 1 (setSkipFrame 2 ⟨0, 0, SeekMode.SEEK_CLOSEST_SYNC, 3, 0⟩ 9) ∧
    clearSkipFrame 2 (clearSeekTo 1 ⟨0, 0, SeekMode.SEEK_CLOSEST_SYNC, 3, 0⟩)
      = clearSeekTo 1 (clearSkipFrame 2 ⟨0, 0, SeekMode.SEEK_CLOSEST_SYNC, 3, 0⟩) :=
  ⟨by decide, seek_skip_commute 1 2 (by decide) _ _ _ _⟩

end MediaSource.ReadOptions

/-! ## The broker: invariants of the steps -/

namespace OMX

end OMX

/-! ## The broker: the node counter -/

namespace OMX

end OMX

/-! ## The broker: silenced handles -/

namespace OMX

theorem freeNode_of_unknown (s : OMX) (node : node_id) (h : findInstance s node = none) :
    (freeNode s node).1 = Status.InvalidHandle := by
  simp only [freeNode, h]

end OMX

/-! ## The broker: the node counter wraps -/

namespace OMX

end OMX

/-! ## The broker: the claims -/

namespace OMX

/-- C9: in every broker state, after `freeNode(handle)` any forwarded operation
on the same handle (`sendCommand`, `getParameter`, `setParameter`, `getConfig`,
`setConfig`, `useBuffer`, `allocateBuffer`, `allocateBufferWithBackup`,
`freeBuffer`, `fillBuffer`, `emptyBuffer`, `getExtensionIndex`), whatever the
Node Instances would answer, and a second `freeNode(handle)` return
`InvalidHandle`. -/
theorem invalidHandle_after_freeNode (nodeStatus : OMXNodeInstance → NodeCall → Status)
    (s : OMX) (handle : node_id) (call : NodeCall) :
    forwardCall nodeStatus (freeNode s handle).2 handle call = Status.InvalidHandle ∧
    (freeNode (freeNode s handle).2 handle).1 = Status.InvalidHandle := by
  have h := findInstance_freeNode_self s handle
  constructor
  · simp only [forwardCall, h]
  · exact freeNode_of_unknown _ handle h


/-- Either serial order of `freeNode(handle)` and `invalidateNodeID(handle)` on
a live handle tears the instance down once: the first call destroys the
component, the second finds no instance, returns `InvalidHandle` where it
returns a status, and changes nothing. -/
theorem teardown_once_in_either_order (s : OMX) (handle : node_id) (inst : OMXNodeInstance)
    (hres : findInstance s handle = some inst) :
    (freeNode s handle).1 = Status.OK ∧
    (freeNode s handle).2.mMaster.destroyed = inst.component :: s.mMaster.destroyed ∧
    invalidateNodeID (freeNode s handle).2 handle = (freeNode s handle).2 ∧
    (invalidateNodeID s handle).mMaster.destroyed = inst.component :: s.mMaster.destroyed ∧
    freeNode (invalidateNodeID s handle) handle
      = (Status.InvalidHandle, invalidateNodeID s handle) := by
  have hgone := findInstance_freeNode_self s handle
  have hfree : ∀ t : OMX, findInstance t handle = none →
      freeNode t handle = (Status.InvalidHandle, t) := by
    intro t ht
    simp only [freeNode, ht]
  refine ⟨?_, ?_, ?_, ?_, ?_⟩
  · simp only [freeNode, hres]
  · simp only [freeNode, hres, OMXMaster.destroyComponentInstance]
  · simp only [invalidateNodeID, invalidateNodeID_l, hfree _ hgone]
  · simp only [invalidateNodeID, invalidateNodeID_l, freeNode, hres,
      OMXMaster.destroyComponentInstance]
  · exact hfree _ hgone


end OMX

/-! ## The broker: connection death, the claims -/

namespace OMX

end OMX
